import Mathlib

/-!
Shallow embedding of the event-stream client in
`pkg/fab/events/consumer/consumer.go` (package `consumer`), together with
theorems settling the specification claims about it.

Conventions of the embedding:
* Go `error` values become `Option GoError` (`none` = nil error);
  `errors.New s` becomes `GoError.base s`, `errors.Wrap e s` becomes
  `GoError.wrap e s` and `errors.WithMessage e s` becomes
  `GoError.withMessage e s`.
* `time.Duration` (an int64 of nanoseconds) becomes `Int`.
* External collaborators (the grpc dial, the adapter, the stream) are
  parameters: a function argument records what the collaborator returns.
-/

namespace Consumer

/-- Embedding of Go `error` values as produced by the `errors` package:
`errors.New`, `errors.Wrap`, `errors.WithMessage`. -/
inductive GoError : Type where
  | base (msg : String)
  | wrap (e : GoError) (msg : String)
  | withMessage (e : GoError) (msg : String)
deriving DecidableEq, Repr

/-- The variants of the `peer.Event` protobuf oneof that the consumer code
distinguishes (`Event_Register`, `Event_Unregister`, and the remaining
variants, which the `switch` in `register` treats uniformly as `default`). -/
inductive EventVariant : Type where
  | registerV
  | unregisterV
  | blockV
  | chaincodeEventV
  | rejectionV
deriving DecidableEq, Repr

/-- An inbound `*ehpb.Event` message: its `Event` oneof field may be nil
(the `case nil:` arm of the `switch in.Event.(type)`). -/
structure EventMsg : Type where
  event : Option EventVariant
deriving DecidableEq, Repr

/-- Result of `ec.stream.Recv()` inside the `register` goroutine:
either a message or a receive error. -/
inductive RecvResult : Type where
  | ok (m : EventMsg)
  | recvError (e : GoError)
deriving DecidableEq, Repr

/-- Outcome of the `select` race in `register` between the spawned
`stream.Recv` goroutine (which closes `regChan`) and
`time.After(ec.regTimeout)`: either the receive completes first or the
timer fires first. -/
inductive RegisterRace : Type where
  | recvFirst (r : RecvResult)
  | timeoutFirst
deriving DecidableEq, Repr

/-- The `switch in.Event.(type)` classification in `register`
(consumer.go lines 187-193): `Event_Register` is success, a nil `Event`
field is "nil object for register", any other variant is
"invalid object for register". -/
def classifyRegisterAck (m : EventMsg) : Option GoError :=
  match m.event with
  | some .registerV => none
  | none => some (.base "nil object for register")
  | some _ => some (.base "invalid object for register")

/-- Embedding of `register` (consumer.go lines 173-201). `asyncResult` is
the value returned by `ec.RegisterAsync(ies)`; if it is an error, `register`
returns it at once. Otherwise the spawned `stream.Recv` races the
`time.After(ec.regTimeout)` timer: if the receive wins, a receive error is
returned as-is and a message is classified by the `switch`; if the timer
wins, `err` is set to "register timeout". -/
def register (asyncResult : Option GoError) (race : RegisterRace) : Option GoError :=
  match asyncResult with
  | some e => some e
  | none =>
    match race with
    | .timeoutFirst => some (.base "register timeout")
    | .recvFirst (.recvError e) => some e
    | .recvFirst (.ok m) => classifyRegisterAck m

/-- One millisecond of `time.Duration`, in nanoseconds. -/
def millisecond : Int := 1000000

/-- One second of `time.Duration`, in nanoseconds. -/
def second : Int := 1000000000

/-- The registration-timeout clamping performed by `NewEventsClient`
(consumer.go lines 63-70): a timeout below 100ms is raised to 100ms with an
advisory error, one above 60s is lowered to 60s with an advisory error,
anything in between is kept with a nil error. -/
def clampRegTimeout (regTimeout : Int) : Int × Option GoError :=
  if regTimeout < 100 * millisecond then
    (100 * millisecond, some (.base "regTimeout >= 0, setting to 100 msec"))
  else if regTimeout > 60 * second then
    (60 * second, some (.base "regTimeout > 60, setting to 60 sec"))
  else
    (regTimeout, none)

/-- The slice of the constructed `eventsClient` that the claims are about. -/
structure EventsClientCfg : Type where
  peerAddress : String
  regTimeout : Int
  allowInsecure : Bool
deriving DecidableEq, Repr

/-- Embedding of `NewEventsClient` (consumer.go lines 59-87): the client is
always constructed and returned; the clamping advisory (when any) rides
alongside it as a non-fatal error. -/
def NewEventsClient (peerAddress : String) (regTimeout : Int) (allowInsecure : Bool) :
    EventsClientCfg × Option GoError :=
  let (t, err) := clampRegTimeout regTimeout
  ({ peerAddress := peerAddress, regTimeout := t, allowInsecure := allowInsecure }, err)

/-- One outcome of `ec.stream.Recv()` as seen by the dispatch loop
`processEvents`: end of stream (`io.EOF`), a receive error, or a normal
message. -/
inductive RecvOutcome : Type where
  | eof
  | err (e : GoError)
  | msg (m : EventMsg)
deriving DecidableEq, Repr

/-- The adapter's `Recv(msg)` method: returns a continuation flag and an
error (`consumer.EventAdapter`). -/
def Adapter : Type := EventMsg → Bool × Option GoError

/-- Observable effects of one run of the dispatch loop body. `retVal` is
the error `processEvents` returns (`none` = nil), `disconnects` the
arguments of the `adapter.Disconnected` calls in order, `adapterRecvCount`
the number of `adapter.Recv` calls and `streamRecvCount` the number of
`stream.Recv` calls. -/
structure LoopRun : Type where
  retVal : Option GoError
  disconnects : List (Option GoError)
  adapterRecvCount : Nat
  streamRecvCount : Nat
deriving DecidableEq, Repr

/-- The `for` loop of `processEvents` (consumer.go lines 284-305), driven
by the list of successive `stream.Recv` outcomes. `none` means the given
trace ran out before the loop returned (the real loop would block in
`Recv`). On `io.EOF` the adapter (when non-nil) is notified
`Disconnected(nil)` and the loop returns nil; on a receive error `e` it is
notified `Disconnected(e)` and the loop returns `e`; on a message the
adapter's `Recv` is consulted and a `false` continuation flag makes the
loop return the adapter's error immediately. -/
def processEventsLoop (adapter : Option Adapter) : List RecvOutcome → Option LoopRun
  | [] => none
  | .eof :: _ =>
    some { retVal := none
           disconnects := if adapter.isSome then [none] else []
           adapterRecvCount := 0
           streamRecvCount := 1 }
  | .err e :: _ =>
    some { retVal := some e
           disconnects := if adapter.isSome then [some e] else []
           adapterRecvCount := 0
           streamRecvCount := 1 }
  | .msg m :: rest =>
    match adapter with
    | none =>
      (processEventsLoop none rest).map fun r =>
        { r with streamRecvCount := r.streamRecvCount + 1 }
    | some a =>
      let (cont, e) := a m
      if cont then
        (processEventsLoop (some a) rest).map fun r =>
          { r with
            adapterRecvCount := r.adapterRecvCount + 1
            streamRecvCount := r.streamRecvCount + 1 }
      else
        some { retVal := e
               disconnects := []
               adapterRecvCount := 1
               streamRecvCount := 1 }

/-- A full run of `processEvents`, loop effects plus the two deferred
effects. -/
structure ProcessEventsRun : Type where
  loop : LoopRun
  closeSendCount : Nat
  completionCloseCount : Nat
deriving DecidableEq, Repr

/-- Embedding of `processEvents` (consumer.go lines 280-306): the body is
`processEventsLoop`, and the two `defer` statements
(`ec.stream.CloseSend()` and `close(ec.processEventsCompleted)`) each run
exactly once on every return path. -/
def processEvents (adapter : Option Adapter) (trace : List RecvOutcome) :
    Option ProcessEventsRun :=
  (processEventsLoop adapter trace).map fun r =>
    { loop := r, closeSendCount := 1, completionCloseCount := 1 }

/-- State of the `processEventsCompleted` channel as `Stop` finds it:
never initialized (a nil channel, on which a receive blocks forever),
initialized and still open, or initialized and closed. -/
inductive CompletionState : Type where
  | nilChan
  | openChan
  | closedChan
deriving DecidableEq, Repr

/-- Inputs that determine a run of `Stop` (consumer.go lines 354-389):
whether `ec.stream` is non-nil, the result of `ec.stream.CloseSend()`, the
state of `ec.processEventsCompleted`, whether (for an open channel) the
dispatch loop closes it before the shutdown timer fires, whether
`ec.clientConn` is non-nil, and the result of `ec.clientConn.Close()`. -/
structure StopEnv : Type where
  streamEstablished : Bool
  closeSendErr : Option GoError
  completion : CompletionState
  drainWithinTimeout : Bool
  connPresent : Bool
  connCloseErr : Option GoError
deriving DecidableEq, Repr

/-- Observable outcome of a run of `Stop`. -/
structure StopResult : Type where
  ret : Option GoError
  closeSendCalled : Bool
  drainWaited : Bool
  timeoutRecorded : Bool
  connCloseCalled : Bool
deriving DecidableEq, Repr

/-- Embedding of `Stop` (consumer.go lines 354-389). With no stream it
returns nil at once. Otherwise it calls `CloseSend`, returning its error
immediately on failure. It then `select`s between
`<-ec.processEventsCompleted` and the shutdown timer: a closed channel is
immediately ready; a nil channel can never fire, so the timer always wins
there; an open channel wins only if the loop closes it within the timeout.
On timer expiry `timeoutErr` is recorded. Then, when `ec.clientConn` is
non-nil, the connection is closed and a close error is returned in
preference to the recorded timeout error. -/
def Stop (env : StopEnv) : StopResult :=
  if !env.streamEstablished then
    { ret := none, closeSendCalled := false, drainWaited := false
      timeoutRecorded := false, connCloseCalled := false }
  else
    match env.closeSendErr with
    | some e =>
      { ret := some e, closeSendCalled := true, drainWaited := false
        timeoutRecorded := false, connCloseCalled := false }
    | none =>
      let timedOut :=
        match env.completion with
        | .closedChan => false
        | .nilChan => true
        | .openChan => !env.drainWithinTimeout
      let timeoutErr : Option GoError :=
        if timedOut then some (.base "close event stream timeout") else none
      if env.connPresent then
        match env.connCloseErr with
        | some e =>
          { ret := some e, closeSendCalled := true, drainWaited := true
            timeoutRecorded := timedOut, connCloseCalled := true }
        | none =>
          { ret := timeoutErr, closeSendCalled := true, drainWaited := true
            timeoutRecorded := timedOut, connCloseCalled := true }
      else
        { ret := timeoutErr, closeSendCalled := true, drainWaited := true
          timeoutRecorded := timedOut, connCloseCalled := false }

/-- An interest descriptor (`*ehpb.Interest`): opaque to the client, only
its presence in the list matters here. -/
structure Interest : Type where
  eventType : Nat
deriving DecidableEq, Repr

/-- Collaborator responses that determine a run of
`establishConnectionAndRegister`: the dial result per security mode, the
adapter's `GetInterestedEvents` result, the `Chat` stream-open result per
security mode, the `register` result, and the `allowInsecure` flag. -/
structure EstabEnv : Type where
  dial : Bool → Option GoError
  interests : Except GoError (List Interest)
  chat : Bool → Option GoError
  registerRes : List Interest → Option GoError
  allowInsecure : Bool

/-- The mutable fields of `eventsClient` that
`establishConnectionAndRegister` assigns: `clientConn` (set after a
successful dial), `stream` (set after a successful `Chat`),
`processEventsCompleted` (made after a successful `register`) and the
spawned dispatch loop. `registerCalled` additionally records whether
`ec.register` — and hence a handshake send — was ever invoked. -/
structure ClientState : Type where
  connSet : Bool
  streamSet : Bool
  completionInit : Bool
  dispatchStarted : Bool
  registerCalled : Bool
deriving DecidableEq, Repr

/-- The client state before any `Start`. -/
def initialClientState : ClientState :=
  { connSet := false, streamSet := false, completionInit := false
    dispatchStarted := false, registerCalled := false }

/-- How one pass of the `establishConnectionAndRegister` body ends. -/
inductive AttemptOutcome : Type where
  | dialFailed (e : GoError)
  | interestFailed (e : GoError)
  | interestEmpty
  | chatFailed (e : GoError)
  | registerFailed (e : GoError)
  | success
deriving DecidableEq, Repr

/-- One pass of the `establishConnectionAndRegister` body (consumer.go
lines 313-351) without the fallback branch: dial (on success `clientConn`
is set), fetch the interested events, reject an empty list, open the
`Chat` stream (on success `stream` is set), and `register` (on success
`processEventsCompleted` is initialized and the dispatch loop started). -/
def attemptRun (env : EstabEnv) (secured : Bool) (s : ClientState) :
    ClientState × AttemptOutcome :=
  match env.dial secured with
  | some e => (s, .dialFailed e)
  | none =>
    let s1 := { s with connSet := true }
    match env.interests with
    | .error e => (s1, .interestFailed e)
    | .ok ies =>
      if ies.isEmpty then (s1, .interestEmpty)
      else
        match env.chat secured with
        | some e => (s1, .chatFailed e)
        | none =>
          let s2 := { s1 with streamSet := true, registerCalled := true }
          match env.registerRes ies with
          | some e => (s2, .registerFailed e)
          | none =>
            ({ s2 with completionInit := true, dispatchStarted := true }, .success)

/-- The error `establishConnectionAndRegister` returns for each outcome
when the fallback branch is not taken: dial failure is wrapped with
`errors.WithMessage(err, "events connection failed")`, interest retrieval
failure with `errors.Wrap(err, "interested events retrieval failed")`, an
empty list yields `errors.New("interested events is required")`, a
stream-open failure is wrapped with
`errors.Wrap(err, "events connection failed")`, a register failure is
returned as-is, and success returns nil. -/
def outcomeError : AttemptOutcome → Option GoError
  | .dialFailed e => some (.withMessage e "events connection failed")
  | .interestFailed e => some (.wrap e "interested events retrieval failed")
  | .interestEmpty => some (.base "interested events is required")
  | .chatFailed e => some (.wrap e "events connection failed")
  | .registerFailed e => some e
  | .success => none

/-- Embedding of `establishConnectionAndRegister` (consumer.go lines
313-351) including its self-recursion: when the `Chat` stream-open fails
under secured mode and `allowInsecure` holds, the whole body is re-run
once with `secured = false`. The recursion is modelled with fuel
(`none` = fuel ran out); the returned `Nat` counts the attempts made.
Every other outcome returns `outcomeError` without recursing. -/
def establishFuel (env : EstabEnv) :
    Nat → Bool → ClientState → Option (ClientState × Nat × Option GoError)
  | 0, _, _ => none
  | fuel + 1, secured, s =>
    let (s', o) := attemptRun env secured s
    match o with
    | .chatFailed e =>
      if secured && env.allowInsecure then
        (establishFuel env fuel false s').map fun r => (r.1, r.2.1 + 1, r.2.2)
      else
        some (s', 1, some (.wrap e "events connection failed"))
    | o => some (s', 1, outcomeError o)

/-- Embedding of `Start` (consumer.go lines 309-311): it runs
`establishConnectionAndRegister` with the client's configured security
mode on a fresh client. Fuel 2 suffices: the recursion flips `secured` to
`false`, under which the fallback guard is off (proved below). -/
def Start (env : EstabEnv) (secured : Bool) :
    Option (ClientState × Nat × Option GoError) :=
  establishFuel env 2 secured initialClientState

/-- The `processEventsCompleted` channel as a later `Stop` finds it, given
the client state `Start` left behind: never initialized means a nil
channel; initialized means open or closed according to whether the
dispatch loop has already exited. -/
def completionOf (s : ClientState) (loopExited : Bool) : CompletionState :=
  if s.completionInit then (if loopExited then .closedChan else .openChan)
  else .nilChan

/-- The `StopEnv` a later `Stop` runs under, given the client state a
failed or successful `Start` left behind and the remaining collaborator
responses. -/
def stopEnvOf (s : ClientState) (loopExited : Bool) (drainWithinTimeout : Bool)
    (closeSendErr connCloseErr : Option GoError) : StopEnv :=
  { streamEstablished := s.streamSet
    closeSendErr := closeSendErr
    completion := completionOf s loopExited
    drainWithinTimeout := drainWithinTimeout
    connPresent := s.connSet
    connCloseErr := connCloseErr }

/-- The atomic actions a caller of `send` (consumer.go lines 122-144)
performs, in source order: `ec.Lock()`, `proto.Marshal`, the
`signingMgr.Sign` call, `ec.stream.Send` and the deferred `ec.Unlock()`. -/
inductive SendStep : Type where
  | lockStep
  | marshalStep
  | signStep
  | writeStep
  | unlockStep
deriving DecidableEq, Repr

/-- The step sequence of a `send` call that completes all of
marshal, sign and write (the path taken by `register`, `Unregister` and
event sends when nothing fails). -/
def sendSteps : List SendStep :=
  [.lockStep, .marshalStep, .signStep, .writeStep, .unlockStep]

/-- The step sequence of a `send` call that returns after a marshal
failure (or a nil signing manager); the deferred unlock still runs. -/
def sendStepsMarshalFail : List SendStep :=
  [.lockStep, .marshalStep, .unlockStep]

/-- The step sequence of a `send` call that returns after a signing
failure; the deferred unlock still runs. -/
def sendStepsSignFail : List SendStep :=
  [.lockStep, .marshalStep, .signStep, .unlockStep]

/-- Every step sequence a `send` call can perform: both error exits and
the complete path. Each begins with `lockStep` and ends with
`unlockStep`, because `send` takes `ec.Lock()` on entry and defers
`ec.Unlock()`. -/
def sendPaths : List (List SendStep) :=
  [sendStepsMarshalFail, sendStepsSignFail, sendSteps]

/-- Tag every step of a thread's program with its thread id (two
concurrent callers are the threads `false` and `true`). -/
def tagSend (t : Bool) (p : List SendStep) : List (Bool × SendStep) :=
  p.map fun s => (t, s)

/-- The steps a given thread performs in an interleaved trace. -/
def proj (t : Bool) : List (Bool × SendStep) → List SendStep
  | [] => []
  | (t', s) :: rest => if t' = t then s :: proj t rest else proj t rest

/-- Mutex semantics of `ec.RWMutex`: a trace is admissible when every
`lockStep` happens while no thread holds the lock (a blocked locker
cannot run) and every `unlockStep` is by the holder. Other steps are
always enabled — mutual exclusion of the marshal/sign/write region comes
only from where `send` places the lock and unlock. -/
def lockOk (holder : Option Bool) : List (Bool × SendStep) → Bool
  | [] => true
  | (t, .lockStep) :: rest =>
    match holder with
    | none => lockOk (some t) rest
    | some _ => false
  | (t, .unlockStep) :: rest =>
    match holder with
    | some h => if h = t then lockOk none rest else false
    | none => false
  | (_, _) :: rest => lockOk holder rest

/-- All interleavings of two sequences (each kept in order), with explicit
fuel so the definition is structurally recursive; with fuel at least the
total length the fuel never runs out. -/
def interleavingsF {α : Type} : Nat → List α → List α → List (List α)
  | _, [], ys => [ys]
  | _, x :: xs, [] => [x :: xs]
  | 0, x :: xs, y :: ys => [x :: xs ++ y :: ys]
  | n + 1, x :: xs, y :: ys =>
    ((interleavingsF n xs (y :: ys)).map fun l => x :: l) ++
      ((interleavingsF n (x :: xs) ys).map fun l => y :: l)

/-- All interleavings of two sequences (each kept in order). -/
def interleavings {α : Type} (xs ys : List α) : List (List α) :=
  interleavingsF (xs.length + ys.length) xs ys

/-- A trace is serialized when one caller's whole `send` runs before the
other's: no step of one is placed between two steps of the other. -/
def serializedPair (pa pb : List SendStep) (tr : List (Bool × SendStep)) : Prop :=
  tr = tagSend false pa ++ tagSend true pb ∨ tr = tagSend true pb ++ tagSend false pa

instance (pa pb : List SendStep) (tr : List (Bool × SendStep)) :
    Decidable (serializedPair pa pb tr) := by
  unfold serializedPair; infer_instance

/-- A concrete collaborator environment in which the secured `Chat`
stream-open fails, the insecure one succeeds, and insecure fallback is
allowed. -/
def sampleEnvFallback : EstabEnv :=
  { dial := fun _ => none
    interests := .ok [⟨1⟩]
    chat := fun secured => if secured then some (.base "tls handshake failed") else none
    registerRes := fun _ => none
    allowInsecure := true }

/-- A concrete collaborator environment in which the adapter returns an
empty interest list. -/
def sampleEnvEmptyInterests : EstabEnv :=
  { dial := fun _ => none
    interests := .ok []
    chat := fun _ => none
    registerRes := fun _ => none
    allowInsecure := false }

/-- A concrete collaborator environment in which dial, interest retrieval
and stream-open succeed but the registration handshake fails. -/
def sampleEnvRegisterFail : EstabEnv :=
  { dial := fun _ => none
    interests := .ok [⟨7⟩]
    chat := fun _ => none
    registerRes := fun _ => some (.base "register timeout")
    allowInsecure := false }

set_option maxRecDepth 10000 in
/-- Exhaustive check over every interleaving of any two `send` paths: the
admissible traces (those respecting the mutex) are exactly the serialized
ones. -/
theorem lock_serializes_core :
    (sendPaths.all fun pa => sendPaths.all fun pb =>
      (interleavings (tagSend false pa) (tagSend true pb)).all fun tr =>
        !(lockOk none tr) || decide (serializedPair pa pb tr)) = true := by
  decide

/-- A trace in which thread `true` takes no step consists of thread
`false` steps only. -/
theorem proj_other_nil_false (tr : List (Bool × SendStep)) (h : proj true tr = []) :
    tr = tagSend false (proj false tr) := by
  induction tr with
  | nil => simp [proj, tagSend]
  | cons p rest ih =>
    obtain ⟨t, s⟩ := p
    cases t with
    | false =>
      simp [proj] at h ⊢
      simpa [tagSend] using ih h
    | true => simp [proj] at h

/-- A trace in which thread `false` takes no step consists of thread
`true` steps only. -/
theorem proj_other_nil_true (tr : List (Bool × SendStep)) (h : proj false tr = []) :
    tr = tagSend true (proj true tr) := by
  induction tr with
  | nil => simp [proj, tagSend]
  | cons p rest ih =>
    obtain ⟨t, s⟩ := p
    cases t with
    | true =>
      simp [proj] at h ⊢
      simpa [tagSend] using ih h
    | false => simp [proj] at h

/-- Completeness of the fuelled interleaving enumeration: every trace
whose per-thread projections are `xs` and `ys` occurs among the generated
interleavings, for any fuel covering the trace length. -/
theorem mem_interleavingsF (tr : List (Bool × SendStep)) :
    ∀ (n : Nat) (xs ys : List SendStep), proj false tr = xs → proj true tr = ys →
      tr.length ≤ n → tr ∈ interleavingsF n (tagSend false xs) (tagSend true ys) := by
  induction tr with
  | nil =>
    intro n xs ys hf ht _
    simp [proj] at hf ht
    subst hf; subst ht
    cases n <;> simp [interleavingsF, tagSend]
  | cons p rest ih =>
    intro n xs ys hf ht hn
    obtain ⟨t, s⟩ := p
    cases n with
    | zero => simp at hn
    | succ m =>
      have hm : rest.length ≤ m := by simpa using hn
      cases t with
      | false =>
        simp [proj] at hf ht
        subst hf
        cases ys with
        | nil =>
          have h0 := proj_other_nil_false rest ht
          simp only [tagSend, List.map_cons, List.map_nil, interleavingsF]
          simp only [tagSend] at h0
          rw [← h0]
          simp
        | cons y ys' =>
          have h0 := ih m (proj false rest) (y :: ys') rfl ht hm
          simp only [tagSend, List.map_cons, interleavingsF]
          apply List.mem_append_left
          exact List.mem_map_of_mem _ h0
      | true =>
        simp [proj] at hf ht
        subst ht
        cases xs with
        | nil =>
          have h0 := proj_other_nil_true rest hf
          simp only [tagSend, List.map_cons, List.map_nil, interleavingsF]
          simp only [tagSend] at h0
          rw [← h0]
          simp
        | cons x xs' =>
          have h0 := ih m (x :: xs') (proj true rest) hf rfl hm
          simp only [tagSend, List.map_cons, interleavingsF]
          apply List.mem_append_right
          exact List.mem_map_of_mem _ h0

/-- The two projections of a trace partition it. -/
theorem proj_length (tr : List (Bool × SendStep)) :
    (proj false tr).length + (proj true tr).length = tr.length := by
  induction tr with
  | nil => simp [proj]
  | cons p rest ih =>
    obtain ⟨t, s⟩ := p
    cases t <;> simp [proj] <;> omega

/-- Every trace with the given per-thread projections is one of their
interleavings. -/
theorem mem_interleavings_of_proj (tr : List (Bool × SendStep)) (xs ys : List SendStep)
    (hf : proj false tr = xs) (ht : proj true tr = ys) :
    tr ∈ interleavings (tagSend false xs) (tagSend true ys) := by
  have hlen : (tagSend false xs).length + (tagSend true ys).length = tr.length := by
    subst hf; subst ht
    simp [tagSend, proj_length]
  unfold interleavings
  rw [hlen]
  exact mem_interleavingsF tr tr.length xs ys hf ht le_rfl

/-- C8: for any two concurrent send-triggering operations on the same
client, the marshal, sign and write steps are mutually exclusive: because
`send` holds `ec.Lock()` from entry to its deferred `ec.Unlock()`, every
trace of two concurrent `send` calls that respects the mutex is fully
serialized — one caller's whole marshal+sign+write sequence precedes the
other's, so envelope bytes are never interleaved on the wire and sends on
a client are totally ordered. -/
theorem send_mutual_exclusion (tr : List (Bool × SendStep)) (pa pb : List SendStep)
    (hpa : pa ∈ sendPaths) (hpb : pb ∈ sendPaths)
    (hf : proj false tr = pa) (ht : proj true tr = pb)
    (hl : lockOk none tr = true) :
    tr = tagSend false pa ++ tagSend true pb ∨ tr = tagSend true pb ++ tagSend false pa := by
  have hmem := mem_interleavings_of_proj tr pa pb hf ht
  have h1 := List.all_eq_true.mp lock_serializes_core pa hpa
  have h2 := List.all_eq_true.mp h1 pb hpb
  have h3 := List.all_eq_true.mp h2 tr hmem
  rw [hl] at h3
  simpa [serializedPair] using h3

/-- Witness for C8 at a concrete admissible trace: both callers run the
complete marshal+sign+write path, one after the other. -/
theorem send_mutual_exclusion_witness :
    (sendSteps ∈ sendPaths ∧
      proj false (tagSend false sendSteps ++ tagSend true sendSteps) = sendSteps ∧
      proj true (tagSend false sendSteps ++ tagSend true sendSteps) = sendSteps ∧
      lockOk none (tagSend false sendSteps ++ tagSend true sendSteps) = true) ∧
    (tagSend false sendSteps ++ tagSend true sendSteps =
        tagSend false sendSteps ++ tagSend true sendSteps ∨
      tagSend false sendSteps ++ tagSend true sendSteps =
        tagSend true sendSteps ++ tagSend false sendSteps) :=
  ⟨⟨by decide, by decide, by decide, by decide⟩,
    send_mutual_exclusion (tagSend false sendSteps ++ tagSend true sendSteps)
      sendSteps sendSteps (by decide) (by decide) (by decide) (by decide) (by decide)⟩

/-- C1: when the asynchronous send of `register` succeeds, the result is
decided by the race between the spawned receive and the registration
timer: a Register-variant acknowledgement yields a nil error, a message
with a nil event variant yields "nil object for register", a message of
any other variant yields "invalid object for register", and the timer
firing first yields the "register timeout" error. -/
theorem register_ack_and_timeout :
    register none (.recvFirst (.ok ⟨some .registerV⟩)) = none ∧
    register none (.recvFirst (.ok ⟨none⟩)) = some (.base "nil object for register") ∧
    (∀ v : EventVariant, v ≠ .registerV →
      register none (.recvFirst (.ok ⟨some v⟩)) =
        some (.base "invalid object for register")) ∧
    register none .timeoutFirst = some (.base "register timeout") := by
  refine ⟨rfl, rfl, ?_, rfl⟩
  intro v hv
  cases v with
  | registerV => exact absurd rfl hv
  | unregisterV => rfl
  | blockV => rfl
  | chaincodeEventV => rfl
  | rejectionV => rfl

/-- Witness for C1 at a concrete non-Register variant: a Block message is
classified as "invalid object for register". -/
theorem register_ack_and_timeout_witness :
    (EventVariant.blockV ≠ EventVariant.registerV) ∧
    register none (.recvFirst (.ok ⟨some .blockV⟩)) =
      some (.base "invalid object for register") :=
  ⟨by decide, register_ack_and_timeout.2.2.1 .blockV (by decide)⟩

/-- C5: `NewEventsClient` clamps the registration timeout: below 100ms the
client is built with 100ms and a non-nil advisory error, above 60s with
60s and a non-nil advisory error, and in between the timeout is kept and
the error is nil; in every case the fully-formed client is returned. -/
theorem newEventsClient_timeout_clamping (addr : String) (allowIns : Bool) (t : Int) :
    (t < 100 * millisecond →
      NewEventsClient addr t allowIns =
        ({ peerAddress := addr, regTimeout := 100 * millisecond, allowInsecure := allowIns },
          some (.base "regTimeout >= 0, setting to 100 msec"))) ∧
    (t > 60 * second →
      NewEventsClient addr t allowIns =
        ({ peerAddress := addr, regTimeout := 60 * second, allowInsecure := allowIns },
          some (.base "regTimeout > 60, setting to 60 sec"))) ∧
    (100 * millisecond ≤ t → t ≤ 60 * second →
      NewEventsClient addr t allowIns =
        ({ peerAddress := addr, regTimeout := t, allowInsecure := allowIns }, none)) := by
  refine ⟨fun h1 => ?_, fun h2 => ?_, fun h3 h4 => ?_⟩
  · simp only [NewEventsClient, clampRegTimeout, millisecond, second] at h1 ⊢
    rw [if_pos h1]
  · have hns : ¬ t < 100 * millisecond := by
      simp only [millisecond, second] at h2 ⊢
      omega
    simp only [NewEventsClient, clampRegTimeout]
    rw [if_neg hns, if_pos h2]
  · have hns : ¬ t < 100 * millisecond := by omega
    have hns2 : ¬ t > 60 * second := by omega
    simp only [NewEventsClient, clampRegTimeout]
    rw [if_neg hns, if_neg hns2]

/-- Witness for C5 at three concrete timeouts: 0ns is clamped up to 100ms
with an advisory, 100s is clamped down to 60s with an advisory, and 1s is
kept with a nil error. -/
theorem newEventsClient_timeout_clamping_witness :
    ((0 : Int) < 100 * millisecond ∧
      NewEventsClient "peer0" 0 false =
        ({ peerAddress := "peer0", regTimeout := 100 * millisecond, allowInsecure := false },
          some (.base "regTimeout >= 0, setting to 100 msec"))) ∧
    ((100 * second > 60 * second) ∧
      NewEventsClient "peer0" (100 * second) false =
        ({ peerAddress := "peer0", regTimeout := 60 * second, allowInsecure := false },
          some (.base "regTimeout > 60, setting to 60 sec"))) ∧
    (100 * millisecond ≤ (1 * second : Int) ∧ (1 * second : Int) ≤ 60 * second ∧
      NewEventsClient "peer0" (1 * second) false =
        ({ peerAddress := "peer0", regTimeout := 1 * second, allowInsecure := false }, none)) :=
  ⟨⟨by decide, (newEventsClient_timeout_clamping "peer0" false 0).1 (by decide)⟩,
    ⟨by decide, (newEventsClient_timeout_clamping "peer0" false (100 * second)).2.1 (by decide)⟩,
    by decide, by decide,
    (newEventsClient_timeout_clamping "peer0" false (1 * second)).2.2 (by decide) (by decide)⟩

/-- C2: scenario table for the dispatch loop `processEvents`. Clean
stream end notifies `Disconnected(nil)` and returns nil; a receive error
`E` notifies `Disconnected(E)` and returns `E`; an adapter `Recv`
returning a false continuation flag with error `F` makes the loop return
`F` after a single stream receive, performing no further receives; every
returning run performs the deferred `CloseSend` and the close of the
completion signal exactly once; and a `Stop` that finds the completion
signal closed does not record a drain timeout. -/
theorem processEvents_dispatch :
    (∀ (a : Adapter) (rest : List RecvOutcome),
      processEvents (some a) (.eof :: rest) =
        some { loop := { retVal := none, disconnects := [none]
                         adapterRecvCount := 0, streamRecvCount := 1 }
               closeSendCount := 1, completionCloseCount := 1 }) ∧
    (∀ (a : Adapter) (e : GoError) (rest : List RecvOutcome),
      processEvents (some a) (.err e :: rest) =
        some { loop := { retVal := some e, disconnects := [some e]
                         adapterRecvCount := 0, streamRecvCount := 1 }
               closeSendCount := 1, completionCloseCount := 1 }) ∧
    (∀ (a : Adapter) (m : EventMsg) (f : Option GoError) (rest : List RecvOutcome),
      a m = (false, f) →
      processEvents (some a) (.msg m :: rest) =
        some { loop := { retVal := f, disconnects := []
                         adapterRecvCount := 1, streamRecvCount := 1 }
               closeSendCount := 1, completionCloseCount := 1 }) ∧
    (∀ (adapter : Option Adapter) (trace : List RecvOutcome) (run : ProcessEventsRun),
      processEvents adapter trace = some run →
      run.closeSendCount = 1 ∧ run.completionCloseCount = 1) ∧
    (∀ env : StopEnv, env.streamEstablished = true → env.closeSendErr = none →
      env.completion = .closedChan →
      (Stop env).timeoutRecorded = false ∧ (Stop env).drainWaited = true) := by
  refine ⟨?_, ?_, ?_, ?_, ?_⟩
  · intro a rest
    simp [processEvents, processEventsLoop]
  · intro a e rest
    simp [processEvents, processEventsLoop]
  · intro a m f rest h
    simp [processEvents, processEventsLoop, h]
  · intro adapter trace run h
    simp only [processEvents, Option.map_eq_some'] at h
    obtain ⟨r, _, hr⟩ := h
    rw [← hr]
    exact ⟨rfl, rfl⟩
  · intro env hs hcs hcc
    cases hcp : env.connPresent <;> cases hce : env.connCloseErr <;>
      simp [Stop, hs, hcs, hcc, hcp, hce]

/-- Witness for C2 at a concrete adapter that stops the loop on its first
message with error "F", and at a concrete `Stop` environment whose
completion signal is closed. -/
theorem processEvents_dispatch_witness :
    ((fun _ : EventMsg => (false, some (GoError.base "F"))) ⟨none⟩ =
        ((false : Bool), some (GoError.base "F")) ∧
      processEvents (some fun _ => (false, some (GoError.base "F"))) [.msg ⟨none⟩, .eof] =
        some { loop := { retVal := some (.base "F"), disconnects := []
                         adapterRecvCount := 1, streamRecvCount := 1 }
               closeSendCount := 1, completionCloseCount := 1 }) ∧
    ((Stop { streamEstablished := true, closeSendErr := none, completion := .closedChan
             drainWithinTimeout := false, connPresent := true
             connCloseErr := none }).timeoutRecorded = false ∧
      (Stop { streamEstablished := true, closeSendErr := none, completion := .closedChan
              drainWithinTimeout := false, connPresent := true
              connCloseErr := none }).drainWaited = true) :=
  ⟨⟨rfl, processEvents_dispatch.2.2.1 (fun _ => (false, some (GoError.base "F")))
      ⟨none⟩ (some (.base "F")) [.eof] rfl⟩,
    processEvents_dispatch.2.2.2.2
      { streamEstablished := true, closeSendErr := none, completion := .closedChan
        drainWithinTimeout := false, connPresent := true, connCloseErr := none }
      rfl rfl rfl⟩

/-- Unfolding of `establishConnectionAndRegister` with fuel 2: one attempt
under the given mode, plus — exactly when the stream-open fails under
secured mode with insecure fallback allowed — one further attempt in
insecure mode whose outcome is final. -/
theorem establishFuel_two (env : EstabEnv) (secured : Bool) (s : ClientState) :
    establishFuel env 2 secured s =
      match attemptRun env secured s with
      | (s1, .chatFailed e) =>
        if secured && env.allowInsecure then
          some ((attemptRun env false s1).1, 2, outcomeError (attemptRun env false s1).2)
        else some (s1, 1, some (.wrap e "events connection failed"))
      | (s1, o) => some (s1, 1, outcomeError o) := by
  rcases h1 : attemptRun env secured s with ⟨s1, o1⟩
  cases o1 with
  | chatFailed e1 =>
    by_cases hg : (secured && env.allowInsecure) = true
    · rcases h2 : attemptRun env false s1 with ⟨s2, o2⟩
      cases o2 <;> simp [establishFuel, h1, h2, hg, outcomeError]
    · simp [establishFuel, h1, hg]
  | dialFailed e1 => simp [establishFuel, h1]
  | interestFailed e1 => simp [establishFuel, h1]
  | interestEmpty => simp [establishFuel, h1]
  | registerFailed e1 => simp [establishFuel, h1]
  | success => simp [establishFuel, h1]

/-- C3: when the secured stream-open step fails, `allowInsecure = true`
makes `establishConnectionAndRegister` re-run exactly once in insecure
mode, whose outcome — failure included — is final (attempt count 2);
`allowInsecure = false` makes the failure terminal with no retry (attempt
count 1); and with fuel 2 the self-recursion always terminates with an
attempt count of 1 or 2, i.e. a retry count of 0 or 1, never more. -/
theorem establish_secure_fallback (env : EstabEnv) (s : ClientState) (e : GoError)
    (hchat : (attemptRun env true s).2 = .chatFailed e) :
    (env.allowInsecure = true →
      establishFuel env 2 true s =
        some ((attemptRun env false (attemptRun env true s).1).1, 2,
          outcomeError (attemptRun env false (attemptRun env true s).1).2)) ∧
    (env.allowInsecure = false →
      establishFuel env 2 true s =
        some ((attemptRun env true s).1, 1, some (.wrap e "events connection failed"))) ∧
    (∀ (env2 : EstabEnv) (secured : Bool) (s2 : ClientState),
      ∃ out, establishFuel env2 2 secured s2 = some out ∧
        (out.2.1 = 1 ∨ out.2.1 = 2)) := by
  refine ⟨?_, ?_, ?_⟩
  · intro hai
    rw [establishFuel_two]
    rcases h1 : attemptRun env true s with ⟨s1, o1⟩
    rw [h1] at hchat
    simp at hchat
    subst hchat
    simp [hai]
  · intro hai
    rw [establishFuel_two]
    rcases h1 : attemptRun env true s with ⟨s1, o1⟩
    rw [h1] at hchat
    simp at hchat
    subst hchat
    simp [hai]
  · intro env2 secured s2
    rw [establishFuel_two]
    rcases h1 : attemptRun env2 secured s2 with ⟨s1, o1⟩
    cases o1 with
    | chatFailed e1 =>
      split_ifs with hg
      · exact ⟨_, rfl, Or.inr rfl⟩
      · exact ⟨_, rfl, Or.inl rfl⟩
    | dialFailed e1 => exact ⟨_, rfl, Or.inl rfl⟩
    | interestFailed e1 => exact ⟨_, rfl, Or.inl rfl⟩
    | interestEmpty => exact ⟨_, rfl, Or.inl rfl⟩
    | registerFailed e1 => exact ⟨_, rfl, Or.inl rfl⟩
    | success => exact ⟨_, rfl, Or.inl rfl⟩

/-- Witness for C3 in a concrete environment whose secured stream-open
fails with fallback allowed: exactly one insecure retry is made and its
outcome is returned. -/
theorem establish_secure_fallback_witness :
    ((attemptRun sampleEnvFallback true initialClientState).2 =
        .chatFailed (.base "tls handshake failed") ∧
      sampleEnvFallback.allowInsecure = true) ∧
    establishFuel sampleEnvFallback 2 true initialClientState =
      some ((attemptRun sampleEnvFallback false
              (attemptRun sampleEnvFallback true initialClientState).1).1, 2,
        outcomeError (attemptRun sampleEnvFallback false
          (attemptRun sampleEnvFallback true initialClientState).1).2) :=
  ⟨⟨by decide, rfl⟩,
    (establish_secure_fallback sampleEnvFallback initialClientState
      (.base "tls handshake failed") (by decide)).1 rfl⟩

/-- C6: a `Start` whose dial succeeds but whose adapter yields an empty
interest list fails with "interested events is required", and a failing
interest retrieval is returned wrapped; in both cases the resulting client
state shows `register` was never invoked — so no handshake message was
sent — and no stream was opened. -/
theorem start_interest_failures (env : EstabEnv) (secured : Bool)
    (hdial : env.dial secured = none) :
    (env.interests = .ok [] →
      Start env secured =
        some ({ initialClientState with connSet := true }, 1,
          some (.base "interested events is required"))) ∧
    (∀ e : GoError, env.interests = .error e →
      Start env secured =
        some ({ initialClientState with connSet := true }, 1,
          some (.wrap e "interested events retrieval failed"))) ∧
    ({ initialClientState with connSet := true } : ClientState).registerCalled = false ∧
    ({ initialClientState with connSet := true } : ClientState).streamSet = false := by
  refine ⟨?_, ?_, rfl, rfl⟩
  · intro hint
    unfold Start
    rw [establishFuel_two]
    simp [attemptRun, hdial, hint, outcomeError, initialClientState]
  · intro e hint
    unfold Start
    rw [establishFuel_two]
    simp [attemptRun, hdial, hint, outcomeError, initialClientState]

/-- Witness for C6 in a concrete environment whose adapter returns an
empty interest list. -/
theorem start_interest_failures_witness :
    (sampleEnvEmptyInterests.dial false = none ∧
      sampleEnvEmptyInterests.interests = .ok []) ∧
    Start sampleEnvEmptyInterests false =
      some ({ initialClientState with connSet := true }, 1,
        some (.base "interested events is required")) :=
  ⟨⟨rfl, rfl⟩, (start_interest_failures sampleEnvEmptyInterests false rfl).1 rfl⟩

/-- C9: when `Start` fails during the registration handshake (dial,
interest retrieval and stream-open all succeeded, `register` returned an
error), the returned client state has the stream set but the completion
signal never initialized; a subsequent `Stop` therefore `select`s on a
nil completion channel that can never fire, so — although no dispatch
loop was started — it waits out the full shutdown timeout and returns the
"close event stream timeout" error. -/
theorem start_register_failure_stop_timeout (env : EstabEnv) (secured : Bool)
    (ies : List Interest) (e : GoError)
    (hdial : env.dial secured = none) (hint : env.interests = .ok ies)
    (hne : ies.isEmpty = false) (hchat : env.chat secured = none)
    (hregres : env.registerRes ies = some e) :
    Start env secured =
      some ({ connSet := true, streamSet := true, completionInit := false
              dispatchStarted := false, registerCalled := true }, 1, some e) ∧
    (∀ loopExited drainWithin : Bool,
      Stop (stopEnvOf { connSet := true, streamSet := true, completionInit := false
                        dispatchStarted := false, registerCalled := true }
            loopExited drainWithin none none) =
        { ret := some (.base "close event stream timeout"), closeSendCalled := true
          drainWaited := true, timeoutRecorded := true, connCloseCalled := true }) := by
  constructor
  · unfold Start
    rw [establishFuel_two]
    simp [attemptRun, hdial, hint, hne, hchat, hregres, outcomeError, initialClientState]
  · intro le dw
    cases le <;> cases dw <;> rfl

/-- Witness for C9 in a concrete environment whose `register` fails after
the stream was opened. -/
theorem start_register_failure_stop_timeout_witness :
    Start sampleEnvRegisterFail true =
      some ({ connSet := true, streamSet := true, completionInit := false
              dispatchStarted := false, registerCalled := true }, 1,
        some (.base "register timeout")) ∧
    Stop (stopEnvOf { connSet := true, streamSet := true, completionInit := false
                      dispatchStarted := false, registerCalled := true }
          false false none none) =
      { ret := some (.base "close event stream timeout"), closeSendCalled := true
        drainWaited := true, timeoutRecorded := true, connCloseCalled := true } :=
  ⟨(start_register_failure_stop_timeout sampleEnvRegisterFail true [⟨7⟩]
      (.base "register timeout") rfl rfl rfl rfl rfl).1,
    (start_register_failure_stop_timeout sampleEnvRegisterFail true [⟨7⟩]
      (.base "register timeout") rfl rfl rfl rfl rfl).2 false false⟩

/-- C7: `Stop` on a client that never established a stream returns nil
immediately with no side effects: no `CloseSend`, no drain wait, no
timeout recording and no connection close. -/
theorem stop_no_stream (env : StopEnv) (h : env.streamEstablished = false) :
    Stop env = { ret := none, closeSendCalled := false, drainWaited := false
                 timeoutRecorded := false, connCloseCalled := false } := by
  simp [Stop, h]

/-- Witness for C7 at a concrete unstarted client (a connection handle may
even be present; it is still untouched). -/
theorem stop_no_stream_witness :
    ({ streamEstablished := false, closeSendErr := none, completion := .nilChan
       drainWithinTimeout := false, connPresent := true
       connCloseErr := none } : StopEnv).streamEstablished = false ∧
    Stop { streamEstablished := false, closeSendErr := none, completion := .nilChan
           drainWithinTimeout := false, connPresent := true, connCloseErr := none } =
      { ret := none, closeSendCalled := false, drainWaited := false
        timeoutRecorded := false, connCloseCalled := false } :=
  ⟨rfl, stop_no_stream
    { streamEstablished := false, closeSendErr := none, completion := .nilChan
      drainWithinTimeout := false, connPresent := true, connCloseErr := none } rfl⟩

/-- C4: when the dispatch loop does not signal completion within the
shutdown timeout (a nil completion channel, or an open one the loop does
not close in time), `Stop` still closes the underlying connection and
records the drain timeout; it returns the "close event stream timeout"
error when the connection close succeeds, and whenever the connection
close itself fails that error takes precedence and is the one returned. -/
theorem stop_drain_timeout (env : StopEnv)
    (hs : env.streamEstablished = true) (hcs : env.closeSendErr = none)
    (hconn : env.connPresent = true)
    (ht : env.completion = .nilChan ∨
      (env.completion = .openChan ∧ env.drainWithinTimeout = false)) :
    (Stop env).connCloseCalled = true ∧
    (Stop env).timeoutRecorded = true ∧
    (env.connCloseErr = none → (Stop env).ret = some (.base "close event stream timeout")) ∧
    (∀ e : GoError, env.connCloseErr = some e → (Stop env).ret = some e) := by
  rcases ht with h | ⟨h1, h2⟩ <;> cases hce : env.connCloseErr <;>
    simp_all [Stop]

/-- Witness for C4 at two concrete environments: a drain timeout with a
clean connection close returns the timeout error, and a drain timeout
with a failing connection close returns the close error instead. -/
theorem stop_drain_timeout_witness :
    ((Stop { streamEstablished := true, closeSendErr := none, completion := .openChan
             drainWithinTimeout := false, connPresent := true
             connCloseErr := none }).connCloseCalled = true ∧
      (Stop { streamEstablished := true, closeSendErr := none, completion := .openChan
              drainWithinTimeout := false, connPresent := true
              connCloseErr := none }).ret = some (.base "close event stream timeout")) ∧
    (Stop { streamEstablished := true, closeSendErr := none, completion := .openChan
            drainWithinTimeout := false, connPresent := true
            connCloseErr := some (.base "conn close failed") }).ret =
      some (.base "conn close failed") :=
  ⟨⟨(stop_drain_timeout
        { streamEstablished := true, closeSendErr := none, completion := .openChan
          drainWithinTimeout := false, connPresent := true, connCloseErr := none }
        rfl rfl rfl (Or.inr ⟨rfl, rfl⟩)).1,
      (stop_drain_timeout
        { streamEstablished := true, closeSendErr := none, completion := .openChan
          drainWithinTimeout := false, connPresent := true, connCloseErr := none }
        rfl rfl rfl (Or.inr ⟨rfl, rfl⟩)).2.2.1 rfl⟩,
    (stop_drain_timeout
      { streamEstablished := true, closeSendErr := none, completion := .openChan
        drainWithinTimeout := false, connPresent := true
        connCloseErr := some (.base "conn close failed") }
      rfl rfl rfl (Or.inr ⟨rfl, rfl⟩)).2.2.2 (.base "conn close failed") rfl⟩

/-- C10: when `CloseSend` fails at the start of `Stop` on a started
client, that error is returned immediately: no drain wait is performed
and the underlying connection is not closed, leaving the handle open. -/
theorem stop_close_send_error (env : StopEnv) (e : GoError)
    (hs : env.streamEstablished = true) (hcs : env.closeSendErr = some e) :
    Stop env = { ret := some e, closeSendCalled := true, drainWaited := false
                 timeoutRecorded := false, connCloseCalled := false } := by
  simp [Stop, hs, hcs]

/-- Witness for C10 at a concrete client whose `CloseSend` fails even
though a connection handle is present. -/
theorem stop_close_send_error_witness :
    ({ streamEstablished := true, closeSendErr := some (.base "close send failed")
       completion := .closedChan, drainWithinTimeout := true, connPresent := true
       connCloseErr := none } : StopEnv).closeSendErr = some (.base "close send failed") ∧
    Stop { streamEstablished := true, closeSendErr := some (.base "close send failed")
           completion := .closedChan, drainWithinTimeout := true, connPresent := true
           connCloseErr := none } =
      { ret := some (.base "close send failed"), closeSendCalled := true
        drainWaited := false, timeoutRecorded := false, connCloseCalled := false } :=
  ⟨rfl, stop_close_send_error
    { streamEstablished := true, closeSendErr := some (.base "close send failed")
      completion := .closedChan, drainWithinTimeout := true, connPresent := true
      connCloseErr := none } (.base "close send failed") rfl rfl⟩

end Consumer
